import Mathlib

/-!
Verification of the arbitrage calculation engine of `streamlit_app.py`.

The core of the repository is a pair of pure scalar functions:

* `calcular_arbitraje` — given a buy price (`dolar_compra`), a sell price
  (`crypto_venta`), a traded volume (`volumen_usd`), a percentage fee
  (`comision_pct`) and a fixed fee (`comision_usdt`), it computes the full
  cash-flow breakdown of the buy-low / sell-high chain and a viability verdict.
* `calcular_volumen_minimo` — given the same prices and fees (no volume), it
  computes the break-even volume in closed form, or a sentinel "infinity" when
  no volume is ever profitable.

We embed the two functions over exact rationals `ℚ`.  Python division raises
`ZeroDivisionError` on a zero divisor, which we model with a checked division
returning `Option ℚ`; a `none` result of an embedded function corresponds to an
unhandled exception of the Python function.
-/

/-- Checked division: Python `a / b` raises `ZeroDivisionError` when `b = 0`,
which we model as `none`. -/
def pydiv (a b : ℚ) : Option ℚ :=
  if b = 0 then none else some (a / b)

/-- The dictionary returned by `calcular_arbitraje`, one field per key. -/
structure ArbResult where
  costo_inicial_ars : ℚ
  usdt_netos : ℚ
  ingresos_brutos_ars : ℚ
  comision_ars : ℚ
  ingresos_netos_ars : ℚ
  ganancia_ars : ℚ
  ganancia_usd : ℚ
  roi_porcentaje : ℚ
  viable : Bool
deriving DecidableEq, Repr

/-- Embedding of `calcular_arbitraje` (src/streamlit_app.py, lines 90–144).

The only division whose divisor is not guarded by the source is
`ganancia_ars / dolar_compra`; it is embedded with `pydiv`.  The ROI division
is guarded by `costo_inicial_ars > 0` in the source (a conditional
expression), so it can never raise and is embedded with total division. -/
def calcular_arbitraje (dolar_compra crypto_venta volumen_usd comision_pct comision_usdt : ℚ) :
    Option ArbResult :=
  let costo_inicial_ars := volumen_usd * dolar_compra
  let usdt_netos := volumen_usd - comision_usdt
  if usdt_netos ≤ 0 then
    some { costo_inicial_ars := costo_inicial_ars
           usdt_netos := 0
           ingresos_brutos_ars := 0
           comision_ars := 0
           ingresos_netos_ars := 0
           ganancia_ars := -costo_inicial_ars
           ganancia_usd := -volumen_usd
           roi_porcentaje := -100
           viable := false }
  else
    let ingresos_brutos_ars := usdt_netos * crypto_venta
    let comision_ars := ingresos_brutos_ars * comision_pct
    let ingresos_netos_ars := ingresos_brutos_ars - comision_ars
    let ganancia_ars := ingresos_netos_ars - costo_inicial_ars
    match pydiv ganancia_ars dolar_compra with
    | none => none
    | some ganancia_usd =>
      let roi_porcentaje :=
        if 0 < costo_inicial_ars then (ganancia_ars / costo_inicial_ars) * 100 else 0
      some { costo_inicial_ars := costo_inicial_ars
             usdt_netos := usdt_netos
             ingresos_brutos_ars := ingresos_brutos_ars
             comision_ars := comision_ars
             ingresos_netos_ars := ingresos_netos_ars
             ganancia_ars := ganancia_ars
             ganancia_usd := ganancia_usd
             roi_porcentaje := roi_porcentaje
             viable := decide (0 < ganancia_ars) }

/-- Result type of `calcular_volumen_minimo`: either the sentinel
`float('inf')` or a finite rational volume. -/
inductive VolMin where
  | inf : VolMin
  | fin : ℚ → VolMin
deriving DecidableEq, Repr

/-- The local `denominador` of `calcular_volumen_minimo`
(src/streamlit_app.py, line 164): `crypto_venta * (1 - comision_pct) - dolar_compra`. -/
def denominador (dolar_compra crypto_venta comision_pct : ℚ) : ℚ :=
  crypto_venta * (1 - comision_pct) - dolar_compra

/-- Embedding of `calcular_volumen_minimo` (src/streamlit_app.py,
lines 146–171).  The division is embedded with `pydiv` so that totality is a
theorem rather than an artefact of total division on `ℚ`. -/
def calcular_volumen_minimo (dolar_compra crypto_venta comision_pct comision_usdt : ℚ) :
    Option VolMin :=
  if denominador dolar_compra crypto_venta comision_pct ≤ 0 then
    some VolMin.inf
  else
    match pydiv (comision_usdt * crypto_venta * (1 - comision_pct))
        (denominador dolar_compra crypto_venta comision_pct) with
    | none => none
    | some volumen_min => some (VolMin.fin (max volumen_min 0))

/-- The degenerate branch of `calcular_arbitraje`: when the fixed fee consumes
the whole volume, the source returns a fixed record before any division. -/
lemma calcular_arbitraje_degen (d c V p f : ℚ) (h : V - f ≤ 0) :
    calcular_arbitraje d c V p f =
      some { costo_inicial_ars := V * d
             usdt_netos := 0
             ingresos_brutos_ars := 0
             comision_ars := 0
             ingresos_netos_ars := 0
             ganancia_ars := -(V * d)
             ganancia_usd := -V
             roi_porcentaje := -100
             viable := false } := by
  unfold calcular_arbitraje
  simp [h]

/-- The non-degenerate branch of `calcular_arbitraje` with a nonzero buy
price: every field spelled out as the source computes it. -/
lemma calcular_arbitraje_nondegen (d c V p f : ℚ) (hd : d ≠ 0) (h : f < V) :
    calcular_arbitraje d c V p f =
      some { costo_inicial_ars := V * d
             usdt_netos := V - f
             ingresos_brutos_ars := (V - f) * c
             comision_ars := (V - f) * c * p
             ingresos_netos_ars := (V - f) * c - (V - f) * c * p
             ganancia_ars := (V - f) * c - (V - f) * c * p - V * d
             ganancia_usd := ((V - f) * c - (V - f) * c * p - V * d) / d
             roi_porcentaje :=
               if 0 < V * d then (((V - f) * c - (V - f) * c * p - V * d) / (V * d)) * 100
               else 0
             viable := decide (0 < (V - f) * c - (V - f) * c * p - V * d) } := by
  unfold calcular_arbitraje pydiv
  have h1 : ¬ (V - f ≤ 0) := by linarith
  simp [h1, hd]

/-- `calcular_arbitraje` hits the unguarded division by zero exactly when the
buy price is zero and the degenerate branch was not taken. -/
lemma calcular_arbitraje_none_iff (d c V p f : ℚ) :
    calcular_arbitraje d c V p f = none ↔ d = 0 ∧ f < V := by
  by_cases h1 : V - f ≤ 0
  · rw [calcular_arbitraje_degen d c V p f h1]
    constructor
    · intro h
      exact (Option.some_ne_none _ h).elim
    · rintro ⟨hd, hfV⟩
      exact absurd hfV (by linarith)
  · by_cases h2 : d = 0
    · unfold calcular_arbitraje pydiv
      simp [h1, h2]
      linarith
    · rw [calcular_arbitraje_nondegen d c V p f h2 (by linarith)]
      simp [h2]

/-- The positive-denominator branch of `calcular_volumen_minimo`: the clamped
closed-form break-even volume. -/
lemma calcular_volumen_minimo_pos (d c p f : ℚ) (hden : 0 < denominador d c p) :
    calcular_volumen_minimo d c p f =
      some (VolMin.fin (max ((f * c * (1 - p)) / denominador d c p) 0)) := by
  unfold calcular_volumen_minimo pydiv
  simp [not_le.mpr hden, ne_of_gt hden]

/-- The non-positive-denominator branch of `calcular_volumen_minimo`: the
sentinel infinity. -/
lemma calcular_volumen_minimo_nonpos (d c p f : ℚ) (h : denominador d c p ≤ 0) :
    calcular_volumen_minimo d c p f = some VolMin.inf := by
  unfold calcular_volumen_minimo
  simp [h]

/-- `calcular_volumen_minimo` never raises: both branches return a value. -/
lemma calcular_volumen_minimo_isSome (d c p f : ℚ) :
    (calcular_volumen_minimo d c p f).isSome = true := by
  unfold calcular_volumen_minimo pydiv
  by_cases h : denominador d c p ≤ 0
  · simp [h]
  · have hne : denominador d c p ≠ 0 := fun hz => h hz.le
    simp [h, hne]

/-- Claim C3: degenerate-case law.  Whenever `volume ≤ fixedFee`, the
Calculator returns the fixed total-loss record: `netUnits`, `grossProceeds`,
`feeAmount` and `netProceeds` zero, `profitLocal = -(volume*buyPrice)`,
`profitUSD = -volume`, `roiPercent = -100`, `viable = false`. -/
theorem C3_degenerate_law (d c V p f : ℚ) (h : V ≤ f) :
    calcular_arbitraje d c V p f =
      some { costo_inicial_ars := V * d
             usdt_netos := 0
             ingresos_brutos_ars := 0
             comision_ars := 0
             ingresos_netos_ars := 0
             ganancia_ars := -(V * d)
             ganancia_usd := -V
             roi_porcentaje := -100
             viable := false } :=
  calcular_arbitraje_degen d c V p f (by linarith)

/-- Witness for C3 at the spec's concrete scenario `volume = 0.5`,
`fixedFee = 1` (buy price 1000, sell price 1050, fee rate 1%). -/
theorem C3_degenerate_law_witness :
    calcular_arbitraje 1000 1050 (1/2) (1/100) 1 =
      some { costo_inicial_ars := 500
             usdt_netos := 0
             ingresos_brutos_ars := 0
             comision_ars := 0
             ingresos_netos_ars := 0
             ganancia_ars := -500
             ganancia_usd := -(1/2)
             roi_porcentaje := -100
             viable := false } := by
  rw [C3_degenerate_law 1000 1050 (1/2) (1/100) 1 (by norm_num)]
  norm_num

/-- Claim C4 counterexample: at `buyPrice = 1000`, `sellPrice = 990`,
`feeRate = 0.03` the code's `denominador` is `-39.7`, not the claimed
`-39.3`. -/
theorem C4_counterexample :
    denominador 1000 990 (3/100) = -(397/10) ∧
      ¬ denominador 1000 990 (3/100) = -(393/10) := by
  constructor <;> norm_num [denominador]

/-- Claim C4 (amended): whenever `sellPrice*(1-feeRate) - buyPrice ≤ 0`,
`calcular_volumen_minimo` returns the sentinel infinity; in particular
`buyPrice = 1000, sellPrice = 990, feeRate = 0.03, fixedFee = 1` gives
`denominador = -39.7` and result infinity. -/
theorem C4_unbounded_law (d c p f : ℚ) (h : denominador d c p ≤ 0) :
    calcular_volumen_minimo d c p f = some VolMin.inf :=
  calcular_volumen_minimo_nonpos d c p f h

/-- Witness for C4 at the spec's concrete scenario. -/
theorem C4_unbounded_law_witness :
    denominador 1000 990 (3/100) ≤ 0 ∧
      calcular_volumen_minimo 1000 990 (3/100) 1 = some VolMin.inf :=
  ⟨by norm_num [denominador],
   C4_unbounded_law 1000 990 (3/100) 1 (by norm_num [denominador])⟩

/-- Claim C9: the degenerate branch returns before any division, so for
`volume ≤ fixedFee` the Calculator is total even at `buyPrice = 0`; and an
unhandled exception (`none`) can only happen on the non-degenerate branch,
i.e. when `volume > fixedFee`. -/
theorem C9_degenerate_total (d c V p f : ℚ) :
    (V ≤ f → (calcular_arbitraje d c V p f).isSome = true) ∧
      (calcular_arbitraje d c V p f = none → f < V) := by
  constructor
  · intro h
    rw [calcular_arbitraje_degen d c V p f (by linarith)]
    rfl
  · intro h
    exact ((calcular_arbitraje_none_iff d c V p f).mp h).2

/-- Witness for C9: at `buyPrice = 0` with `volume = 1/2 ≤ 1 = fixedFee` the
Calculator still returns a result. -/
theorem C9_degenerate_total_witness :
    (calcular_arbitraje 0 5 (1/2) 0 1).isSome = true :=
  (C9_degenerate_total 0 5 (1/2) 0 1).1 (by norm_num)

/-- Claim C2: non-degenerate Calculator postcondition.  For positive prices,
`volume > fixedFee ≥ 0` and `feeRate ∈ [0,1]`, every field of the returned
record is the closed-form expression of the spec. -/
theorem C2_nondegenerate_postcondition (d c V p f : ℚ) (hd : 0 < d) (hc : 0 < c)
    (hf : 0 ≤ f) (hfV : f < V) (hp0 : 0 ≤ p) (hp1 : p ≤ 1) :
    calcular_arbitraje d c V p f =
      some { costo_inicial_ars := V * d
             usdt_netos := V - f
             ingresos_brutos_ars := (V - f) * c
             comision_ars := (V - f) * c * p
             ingresos_netos_ars := (V - f) * c - (V - f) * c * p
             ganancia_ars := (V - f) * c - (V - f) * c * p - V * d
             ganancia_usd := ((V - f) * c - (V - f) * c * p - V * d) / d
             roi_porcentaje :=
               if 0 < V * d then (((V - f) * c - (V - f) * c * p - V * d) / (V * d)) * 100
               else 0
             viable := decide (0 < (V - f) * c - (V - f) * c * p - V * d) } :=
  calcular_arbitraje_nondegen d c V p f (ne_of_gt hd) hfV

/-- Witness for C2 at the spec's concrete scenario `buyPrice = 1000`,
`sellPrice = 1050`, `volume = 1000`, `feeRate = 0.01`, `fixedFee = 1`:
`netUnits = 999`, `grossProceeds = 1048950`, `feeAmount = 10489.5`,
`netProceeds = 1038460.5`, `initialCost = 1000000`, `profitLocal = 38460.5`,
`roiPercent = 3.84605`, `viable = true`. -/
theorem C2_nondegenerate_postcondition_witness :
    calcular_arbitraje 1000 1050 1000 (1/100) 1 =
      some { costo_inicial_ars := 1000000
             usdt_netos := 999
             ingresos_brutos_ars := 1048950
             comision_ars := 104895/10
             ingresos_netos_ars := 20769210/20
             ganancia_ars := 769210/20
             ganancia_usd := 769210/20000
             roi_porcentaje := 76921/20000
             viable := true } := by
  rw [C2_nondegenerate_postcondition 1000 1050 1000 (1/100) 1 (by norm_num) (by norm_num)
    (by norm_num) (by norm_num) (by norm_num) (by norm_num)]
  norm_num

/-- Claim C5: finite-branch postcondition and range of the Solver.  When the
denominator is positive the Solver returns the clamped closed form, and on the
whole contract domain its result is either the infinity sentinel or a finite
value that is never negative. -/
theorem C5_finite_branch (d c p f : ℚ) (hd : 0 < d) (hc : 0 < c)
    (hp0 : 0 ≤ p) (hp1 : p ≤ 1) (hf : 0 ≤ f) :
    (0 < denominador d c p →
      calcular_volumen_minimo d c p f =
        some (VolMin.fin (max ((f * c * (1 - p)) / denominador d c p) 0))) ∧
      (calcular_volumen_minimo d c p f = some VolMin.inf ∨
        ∃ v, calcular_volumen_minimo d c p f = some (VolMin.fin v) ∧ 0 ≤ v) := by
  constructor
  · intro hden
    exact calcular_volumen_minimo_pos d c p f hden
  · by_cases hden : denominador d c p ≤ 0
    · left
      exact calcular_volumen_minimo_nonpos d c p f hden
    · right
      refine ⟨max ((f * c * (1 - p)) / denominador d c p) 0,
        calcular_volumen_minimo_pos d c p f (lt_of_not_le hden), le_max_right _ _⟩

/-- Witness for C5 at `buyPrice = 1, sellPrice = 2, feeRate = 0, fixedFee = 1`:
the denominator is `1` and the Solver returns the finite volume `2`. -/
theorem C5_finite_branch_witness :
    calcular_volumen_minimo 1 2 0 1 = some (VolMin.fin (max ((1 * 2 * (1 - 0)) / denominador 1 2 0) 0)) :=
  (C5_finite_branch 1 2 0 1 (by norm_num) (by norm_num) (by norm_num) (by norm_num)
    (by norm_num)).1 (by norm_num [denominador])

/-- Claim C6: viability iff and field consistency.  On the non-degenerate
domain the returned record has `viable = true` exactly when its `profitLocal`
field is strictly positive, and `profitLocal` equals `netProceeds -
initialCost` recomputed from the returned fields. -/
theorem C6_viable_iff (d c V p f : ℚ) (hd : 0 < d) (hc : 0 < c)
    (hf : 0 ≤ f) (hfV : f < V) (hp0 : 0 ≤ p) (hp1 : p ≤ 1) :
    ∃ r, calcular_arbitraje d c V p f = some r ∧
      (r.viable = true ↔ 0 < r.ganancia_ars) ∧
      r.ganancia_ars = r.ingresos_netos_ars - r.costo_inicial_ars := by
  refine ⟨_, calcular_arbitraje_nondegen d c V p f (ne_of_gt hd) hfV, ?_, rfl⟩
  simp

/-- Witness for C6 at `buyPrice = 1000, sellPrice = 1050, volume = 1000,
feeRate = 0.01, fixedFee = 1`. -/
theorem C6_viable_iff_witness :
    ∃ r, calcular_arbitraje 1000 1050 1000 (1/100) 1 = some r ∧
      (r.viable = true ↔ 0 < r.ganancia_ars) ∧
      r.ganancia_ars = r.ingresos_netos_ars - r.costo_inicial_ars :=
  C6_viable_iff 1000 1050 1000 (1/100) 1 (by norm_num) (by norm_num) (by norm_num)
    (by norm_num) (by norm_num) (by norm_num)

/-- Claim C7: totality and the sole unguarded failure.  For `buyPrice > 0`
both functions return a defined result (no exception), the Solver is total on
every input, and an unhandled exception of the Calculator implies
`buyPrice = 0` (the division by zero in the `profitUSD` computation). -/
theorem C7_totality (d c V p f : ℚ) (hd : 0 < d) :
    (calcular_arbitraje d c V p f).isSome = true ∧
      (calcular_volumen_minimo d c p f).isSome = true ∧
      ∀ d2 c2 V2 p2 f2 : ℚ, calcular_arbitraje d2 c2 V2 p2 f2 = none → d2 = 0 := by
  refine ⟨?_, calcular_volumen_minimo_isSome d c p f, ?_⟩
  · cases h : calcular_arbitraje d c V p f with
    | none => exact absurd ((calcular_arbitraje_none_iff d c V p f).mp h).1 (ne_of_gt hd)
    | some r => rfl
  · intro d2 c2 V2 p2 f2 h
    exact ((calcular_arbitraje_none_iff d2 c2 V2 p2 f2).mp h).1

/-- Witness for C7 at `buyPrice = 2, sellPrice = 3, volume = 4, feeRate = 0,
fixedFee = 1`. -/
theorem C7_totality_witness :
    (calcular_arbitraje 2 3 4 0 1).isSome = true ∧
      (calcular_volumen_minimo 2 3 0 1).isSome = true ∧
      ∀ d2 c2 V2 p2 f2 : ℚ, calcular_arbitraje d2 c2 V2 p2 f2 = none → d2 = 0 :=
  C7_totality 2 3 4 0 1 (by norm_num)

/-- Output record of the simple (fee-free) variant described by the spec. -/
structure SimpleResult where
  initialCost : ℚ
  proceeds : ℚ
  profitLocal : ℚ
  profitUSD : ℚ
  roiPercent : ℚ
  viable : Bool
deriving DecidableEq, Repr

/-- Modelled from the spec: the fee-free simple model `computeSimple` of the
official→MEP comparison path (spec §4.3), equivalent to the Calculator with
`feeRate = 0, fixedFee = 0` but without the degenerate-volume branch. -/
def computeSimple (buyPrice sellPrice volume : ℚ) : SimpleResult :=
  let initialCost := volume * buyPrice
  let proceeds := volume * sellPrice
  let profitLocal := proceeds - initialCost
  { initialCost := initialCost
    proceeds := proceeds
    profitLocal := profitLocal
    profitUSD := profitLocal / buyPrice
    roiPercent := if 0 < initialCost then (profitLocal / initialCost) * 100 else 0
    viable := decide (0 < profitLocal) }

/-- Claim C8: simple-variant specialization.  With `feeRate = 0` and
`fixedFee = 0` the Calculator never takes the degenerate branch
(`netUnits = volume`), and every output field matches the fee-free simple
model exactly: `initialCost = volume*buyPrice`,
`grossProceeds = netProceeds = volume*sellPrice`, `feeAmount = 0`,
`profitLocal = volume*(sellPrice - buyPrice)`,
`profitUSD = profitLocal/buyPrice`, `viable = (profitLocal > 0)`. -/
theorem C8_simple_specialization (d c V : ℚ) (hd : 0 < d) (hc : 0 < c) (hV : 0 < V) :
    ∃ r, calcular_arbitraje d c V 0 0 = some r ∧
      r.usdt_netos = V ∧
      r.costo_inicial_ars = (computeSimple d c V).initialCost ∧
      r.ingresos_brutos_ars = (computeSimple d c V).proceeds ∧
      r.comision_ars = 0 ∧
      r.ingresos_netos_ars = (computeSimple d c V).proceeds ∧
      r.ganancia_ars = (computeSimple d c V).profitLocal ∧
      r.ganancia_ars = V * (c - d) ∧
      r.ganancia_usd = (computeSimple d c V).profitUSD ∧
      r.roi_porcentaje = (computeSimple d c V).roiPercent ∧
      r.viable = (computeSimple d c V).viable := by
  refine ⟨_, calcular_arbitraje_nondegen d c V 0 0 (ne_of_gt hd) hV, ?_⟩
  simp [computeSimple]
  ring

/-- Witness for C8 at `buyPrice = 1000, sellPrice = 1050, volume = 10`. -/
theorem C8_simple_specialization_witness :
    ∃ r, calcular_arbitraje 1000 1050 10 0 0 = some r ∧
      r.usdt_netos = 10 ∧
      r.costo_inicial_ars = (computeSimple 1000 1050 10).initialCost ∧
      r.ingresos_brutos_ars = (computeSimple 1000 1050 10).proceeds ∧
      r.comision_ars = 0 ∧
      r.ingresos_netos_ars = (computeSimple 1000 1050 10).proceeds ∧
      r.ganancia_ars = (computeSimple 1000 1050 10).profitLocal ∧
      r.ganancia_ars = 10 * (1050 - 1000) ∧
      r.ganancia_usd = (computeSimple 1000 1050 10).profitUSD ∧
      r.roi_porcentaje = (computeSimple 1000 1050 10).roiPercent ∧
      r.viable = (computeSimple 1000 1050 10).viable :=
  C8_simple_specialization 1000 1050 10 (by norm_num) (by norm_num) (by norm_num)

/-- Claim C1: consistency contract between the two core functions.  When the
denominator is positive and `V0` is the Solver's break-even volume, the
Calculator's verdict is viable for every volume above `V0` and not viable for
every positive volume below `V0`. -/
theorem C1_breakeven_boundary (d c p f V0 V : ℚ) (hd : 0 < d) (hc : 0 < c)
    (hp0 : 0 ≤ p) (hp1 : p ≤ 1) (hf : 0 ≤ f) (hden : 0 < denominador d c p)
    (hV0 : calcular_volumen_minimo d c p f = some (VolMin.fin V0)) :
    (V0 < V → (calcular_arbitraje d c V p f).map ArbResult.viable = some true) ∧
      (0 < V → V < V0 → (calcular_arbitraje d c V p f).map ArbResult.viable = some false) := by
  rw [calcular_volumen_minimo_pos d c p f hden] at hV0
  simp only [Option.some.injEq, VolMin.fin.injEq] at hV0
  have hden_def : denominador d c p = c * (1 - p) - d := rfl
  have hnum_nonneg : 0 ≤ f * c * (1 - p) :=
    mul_nonneg (mul_nonneg hf hc.le) (by linarith)
  have hdiv_nonneg : 0 ≤ f * c * (1 - p) / denominador d c p :=
    div_nonneg hnum_nonneg hden.le
  have hV0eq : V0 = f * c * (1 - p) / denominador d c p := by
    rw [← hV0, max_eq_left hdiv_nonneg]
  have hV0den : V0 * (c * (1 - p) - d) = f * c * (1 - p) := by
    rw [← hden_def, hV0eq]
    field_simp
  have hfV0 : f ≤ V0 := by
    have h5 : (V0 - f) * (c * (1 - p) - d) = f * d := by linear_combination hV0den
    rw [hden_def] at hden
    nlinarith [mul_nonneg hf hd.le]
  constructor
  · intro hVV0
    have hfV : f < V := lt_of_le_of_lt hfV0 hVV0
    rw [calcular_arbitraje_nondegen d c V p f (ne_of_gt hd) hfV]
    simp only [Option.map_some', Option.some.injEq, decide_eq_true_eq]
    have hg : (V - f) * c - (V - f) * c * p - V * d = (V - V0) * (c * (1 - p) - d) := by
      linear_combination hV0den
    rw [hg, ← hden_def]
    exact mul_pos (sub_pos.mpr hVV0) hden
  · intro hVpos hVV0
    by_cases hfV : V - f ≤ 0
    · rw [calcular_arbitraje_degen d c V p f hfV]
      rfl
    · rw [calcular_arbitraje_nondegen d c V p f (ne_of_gt hd) (by linarith)]
      simp only [Option.map_some', Option.some.injEq, decide_eq_false_iff_not, not_lt]
      have hg : (V - f) * c - (V - f) * c * p - V * d = (V - V0) * (c * (1 - p) - d) := by
        linear_combination hV0den
      rw [hg, ← hden_def]
      exact le_of_lt (mul_neg_of_neg_of_pos (sub_neg.mpr hVV0) hden)

/-- Witness for C1 at `buyPrice = 1, sellPrice = 2, feeRate = 0,
fixedFee = 1`: the Solver returns `V0 = 2`, and at volume `3 > 2` the
Calculator's verdict is viable. -/
theorem C1_breakeven_boundary_witness :
    (calcular_arbitraje 1 2 3 0 1).map ArbResult.viable = some true :=
  (C1_breakeven_boundary 1 2 0 1 2 3 (by norm_num) (by norm_num) (by norm_num)
    (by norm_num) (by norm_num) (by norm_num [denominador])
    (by rw [calcular_volumen_minimo_pos 1 2 0 1 (by norm_num [denominador])]
        norm_num [denominador])).1 (by norm_num)

/-- Claim C10: profit is strictly monotone in volume.  With a positive
after-fee spread (`denominador > 0`), increasing the traded volume strictly
increases the `ganancia_ars` field of the Calculator's result. -/
theorem C10_profit_monotone (d c p f V1 V2 : ℚ) (hd : 0 < d) (hc : 0 < c)
    (hp0 : 0 ≤ p) (hp1 : p ≤ 1) (hf : 0 ≤ f) (hden : 0 < denominador d c p)
    (h1 : f < V1) (h12 : V1 < V2) :
    ∃ r1 r2, calcular_arbitraje d c V1 p f = some r1 ∧
      calcular_arbitraje d c V2 p f = some r2 ∧
      r1.ganancia_ars < r2.ganancia_ars := by
  refine ⟨_, _, calcular_arbitraje_nondegen d c V1 p f (ne_of_gt hd) h1,
    calcular_arbitraje_nondegen d c V2 p f (ne_of_gt hd) (lt_trans h1 h12), ?_⟩
  have hden' : 0 < c * (1 - p) - d := hden
  simp only
  nlinarith [mul_pos (sub_pos.mpr h12) hden']

/-- Witness for C10 at `buyPrice = 1, sellPrice = 2, feeRate = 0,
fixedFee = 0`, volumes `1 < 2`. -/
theorem C10_profit_monotone_witness :
    ∃ r1 r2, calcular_arbitraje 1 2 1 0 0 = some r1 ∧
      calcular_arbitraje 1 2 2 0 0 = some r2 ∧
      r1.ganancia_ars < r2.ganancia_ars :=
  C10_profit_monotone 1 2 0 0 1 2 (by norm_num) (by norm_num) (by norm_num)
    (by norm_num) (by norm_num) (by norm_num [denominador]) (by norm_num) (by norm_num)
